import Mathlib

/-!
Verification of the per-chat session registry and message-handling flow of
the Kritika Telegram bot (`kritika_botren.py`).

The embedding models the module-level state (the `conversations` dict), the
two Telegram handlers (`start` and `generate_response`), the Gemini response
shape and reply extraction, and the startup API-key check.  External calls
(Telegram sends, the Gemini request) are fallible: each call site consults an
oracle in `Effects` saying whether that call succeeds or raises.  A handler
run yields the new state, the list of outbound messages actually delivered by
`send_message`, whether an exception propagated out of the handler, and the
prompt submitted to the model (if the model call was reached).

Chat sessions (`model.start_chat(history=[])`) are opaque handles; we give
each a fresh serial number `sid` so that identity and freshness of sessions
are expressible, plus the initial (empty) history visible at creation.  The
SDK-internal mutation of a session during `send_message` is not modelled:
no claim concerns history contents after creation.
-/

set_option autoImplicit false

namespace KritikaBot

/-- Telegram conversation identifier (`chat_id`). -/
abbrev ChatId := Nat

/-- An opaque chat-session handle from `model.start_chat`.  `sid` is a fresh
serial number giving each created session its identity; `history` is the
history the session was created with (always `[]` in the source). -/
structure ChatSession where
  sid : Nat
  history : List String
deriving DecidableEq, Repr

/-- Module-level mutable state: the `conversations` dict (line 78) plus the
freshness counter backing session identity. -/
structure BotState where
  conversations : ChatId → Option ChatSession
  nextSid : Nat

/-- The state at process start: `conversations = {}`. -/
def initState : BotState :=
  { conversations := fun _ => none, nextSid := 0 }

/-- `model.start_chat(history=[])`: a fresh empty-history session. -/
def startChat (s : BotState) : ChatSession × BotState :=
  (⟨s.nextSid, []⟩, { s with nextSid := s.nextSid + 1 })

/-- `conversations[chat_id] = sess` (dict assignment). -/
def setConversation (s : BotState) (c : ChatId) (sess : ChatSession) : BotState :=
  { s with conversations := fun c' => if c' = c then some sess else s.conversations c' }

/-- One part of a Gemini response; `text = none` models a part without a
usable `text` attribute (`hasattr(part, 'text')` false), mirroring line 130. -/
structure Part where
  text : Option String
deriving DecidableEq, Repr

/-- The shape of a Gemini response: an optional direct `text` field (where
`none` models `hasattr(response, "text")` being false, including the SDK
raising on access) and an ordered list of parts (lines 126-132). -/
structure GenResponse where
  text : Option String
  parts : List Part
deriving DecidableEq, Repr

/-- Outcome of `chat_session.send_message(prompt)`: a response, or an
exception raised by the call. -/
inductive ModelOutcome where
  | ok (r : GenResponse)
  | raise
deriving DecidableEq, Repr

/-- The fields of an inbound Telegram update read by the handlers:
`effective_chat.id`, optionally `effective_user.first_name`, and optionally
`message.text` (`none` covers both a missing `message` and a message with no
text; the empty string is a present-but-empty text). -/
structure Update where
  chatId : ChatId
  userFirstName : Option String
  messageText : Option String
deriving DecidableEq, Repr

/-- Success/failure oracle for the external calls of one handler invocation,
one field per call site: the typing indicator (line 116), the Gemini call
(line 122), the `send_message` inside the `try` block (line 136 or 139), the
`send_message` inside the `except` block (line 145), and the welcome
`send_message` of the `start` handler (line 86). -/
structure Effects where
  chatActionOk : Bool
  modelResult : ModelOutcome
  trySendOk : Bool
  exceptSendOk : Bool
  welcomeSendOk : Bool
deriving DecidableEq, Repr

/-- Result of one handler invocation: the new module state, the outbound
messages delivered by `send_message` in order, whether an exception
propagated out of the handler, and the prompt submitted to the Gemini client
(`none` when the model call was never reached). -/
structure HandlerResult where
  state : BotState
  sent : List (ChatId × String)
  raised : Bool
  modelQuery : Option String

/-- Placeholder display name used when `update.effective_user` is absent. -/
def defaultName : String := "दोस्त"

/-- The fixed templated welcome message of the `start` handler (lines 88-94). -/
def welcomeText (name : String) : String :=
  "Hi " ++ name ++ "! 👋\n" ++
  "Main Kritika hoon – aapki English Teacher. 💡\n" ++
  "Main aapko 90 dino mein basic se advanced English sikhane wali hoon, step-by-step.\n" ++
  "Har din aapko grammar aur translation ka ek chhota task milega.\n" ++
  "Shuruaat karein? ✨"

/-- The bilingual prompt template of line 118. -/
def geminiPrompt (name msg : String) : String :=
  "उपयोगकर्ता का नाम: " ++ name ++ "\nउपयोगकर्ता का संदेश: " ++ msg

/-- Fallback sent when the Gemini response contains no usable text
(lines 139-142). -/
def emptyResponseFallback : String :=
  "माफ़ करें, कुछ गड़बड़ हो गई। मैं अभी जवाब नहीं दे पा रही हूँ।"

/-- Fallback sent from the `except` block (lines 145-148). -/
def errorFallback : String :=
  "क्षमा करें, मुझे जवाब देने में परेशानी हो रही है। कृपया बाद में कोशिश करें।"

/-- The part-scanning loop of lines 128-132: the text of the first part with
a present, non-empty `text`, else the initial `bot_reply = ""`. -/
def firstPartText : List Part → String
  | [] => ""
  | p :: ps =>
    match p.text with
    | some t => if t = "" then firstPartText ps else t
    | none => firstPartText ps

/-- Reply extraction, lines 125-132: the direct `text` field when present and
non-empty, otherwise the first part with non-empty text, otherwise `""`. -/
def extractReply (r : GenResponse) : String :=
  match r.text with
  | some t => if t = "" then firstPartText r.parts else t
  | none => firstPartText r.parts

/-- Lines 108-112: return the existing session for `c`, or create, store and
return a fresh empty-history session.  This is the Session Registry
`get_or_create` operation of the specification. -/
def get_or_create (c : ChatId) (s : BotState) : ChatSession × BotState :=
  match s.conversations c with
  | some sess => (sess, s)
  | none =>
    let (sess, s1) := startChat s
    (sess, setConversation s1 c sess)

/-- The `except Exception` block of lines 143-148: send the error fallback;
if that send itself raises, the exception propagates out of the handler. -/
def exceptHandler (eff : Effects) (c : ChatId) (s : BotState) (q : Option String) :
    HandlerResult :=
  if eff.exceptSendOk then
    { state := s, sent := [(c, errorFallback)], raised := false, modelQuery := q }
  else
    { state := s, sent := [], raised := true, modelQuery := q }

/-- The `start` handler, lines 81-95: unconditionally store a fresh
empty-history session for the chat, then send the welcome message.  The
dict assignment (line 84) precedes the send (line 86), so the new session
stays in the registry even when the send raises and propagates. -/
def start (eff : Effects) (u : Update) (s : BotState) : HandlerResult :=
  let name := u.userFirstName.getD defaultName
  let (sess, s1) := startChat s
  let s2 := setConversation s1 u.chatId sess
  { state := s2,
    sent := if eff.welcomeSendOk then [(u.chatId, welcomeText name)] else [],
    raised := !eff.welcomeSendOk,
    modelQuery := none }

/-- The `generate_response` handler, lines 97-148, with every external call
routed through `eff`.  Control flow mirrors the source: empty/absent text
returns silently; the session is resolved via `get_or_create`; inside the
`try`, a raise at the typing indicator, the Gemini call, or the reply send
jumps to `exceptHandler`. -/
def generate_response (eff : Effects) (u : Update) (s : BotState) : HandlerResult :=
  let name := u.userFirstName.getD defaultName
  match u.messageText with
  | none => { state := s, sent := [], raised := false, modelQuery := none }
  | some msg =>
    if msg = "" then
      { state := s, sent := [], raised := false, modelQuery := none }
    else
      let _chat_session := (get_or_create u.chatId s).1
      let s1 := (get_or_create u.chatId s).2
      if eff.chatActionOk then
        let p := geminiPrompt name msg
        match eff.modelResult with
        | .ok r =>
          let bot_reply := extractReply r
          let text := if bot_reply = "" then emptyResponseFallback else bot_reply
          if eff.trySendOk then
            { state := s1, sent := [(u.chatId, text)], raised := false, modelQuery := some p }
          else
            exceptHandler eff u.chatId s1 (some p)
        | .raise => exceptHandler eff u.chatId s1 (some p)
      else
        exceptHandler eff u.chatId s1 none

/-- The two inbound event kinds routed to this core (lines 152-153). -/
inductive InboundEvent where
  | startCmd (u : Update)
  | message (u : Update)
deriving DecidableEq, Repr

/-- Dispatch of lines 152-153. -/
def handleEvent (eff : Effects) (e : InboundEvent) (s : BotState) : HandlerResult :=
  match e with
  | .startCmd u => start eff u s
  | .message u => generate_response eff u s

/-- The update carried by an event. -/
def eventUpdate : InboundEvent → Update
  | .startCmd u => u
  | .message u => u

/-- The silent-ignore case of lines 102-104: a message event whose text is
absent or empty. -/
def silentlyIgnored : InboundEvent → Bool
  | .startCmd _ => false
  | .message u =>
    match u.messageText with
    | none => true
    | some m => m == ""

/-- The deployment environment: the two secrets read at lines 17-18
(`none` models an unset environment variable). -/
structure Env where
  GOOGLE_API_KEY : Option String
  TELEGRAM_BOT_TOKEN : Option String
deriving DecidableEq, Repr

/-- Python truthiness of the value of `os.environ.get(...)`: an absent
variable (`None`) and the empty string are both falsy. -/
def truthy : Option String → Bool
  | none => false
  | some s => !(s == "")

/-- Outcome of the API-key setup block of lines 16-35. -/
inductive SetupResult where
  | exited (code : Nat)
  | configured (googleKey botToken : String)
deriving DecidableEq, Repr

/-- Lines 16-35: a falsy `GOOGLE_API_KEY` or `TELEGRAM_BOT_TOKEN` raises
`ValueError`, caught and turned into `sys.exit(1)`; otherwise both keys are
configured.  This block runs at import time, before the `Application` of
line 151 is built and before `run_polling` starts. -/
def apiKeySetup (env : Env) : SetupResult :=
  if truthy env.GOOGLE_API_KEY = false then .exited 1
  else if truthy env.TELEGRAM_BOT_TOKEN = false then .exited 1
  else .configured (env.GOOGLE_API_KEY.getD "") (env.TELEGRAM_BOT_TOKEN.getD "")

/-- The event loop: handle events in order, threading the module state. -/
def runEvents : List (Effects × InboundEvent) → BotState → List HandlerResult
  | [], _ => []
  | (eff, e) :: rest, s =>
    let r := handleEvent eff e s
    r :: runEvents rest r.state

/-- A whole process run: `startupExit = some c` means the process exited at
startup with code `c` (and handled nothing); otherwise the event loop ran
over the inbound events. -/
structure ProcessRun where
  startupExit : Option Nat
  handled : List HandlerResult

/-- Lines 16-35 followed by lines 150-160: key setup, then (only when setup
succeeded) polling over the inbound events starting from the empty
`conversations` dict. -/
def runProcess (env : Env) (events : List (Effects × InboundEvent)) : ProcessRun :=
  match apiKeySetup env with
  | .exited c => { startupExit := some c, handled := [] }
  | .configured _ _ => { startupExit := none, handled := runEvents events initState }

/-! ## Claims -/

/-- Claim C2: for every inbound message event whose message text is absent or
the empty string, the message handler performs no action: the whole module
state (in particular the session registry) is returned unchanged, zero
outbound messages are emitted, nothing is raised and the model is not
queried. -/
theorem C2_silent_ignore (eff : Effects) (u : Update) (s : BotState)
    (h : u.messageText = none ∨ u.messageText = some "") :
    generate_response eff u s =
      { state := s, sent := [], raised := false, modelQuery := none } := by
  rcases h with h | h <;> simp [generate_response, h]

/-- Witness for C2 at a concrete absent-text event. -/
theorem C2_witness :
    generate_response ⟨true, .raise, true, true, true⟩ ⟨1, some "Asha", none⟩ initState =
      { state := initState, sent := [], raised := false, modelQuery := none } :=
  C2_silent_ignore ⟨true, .raise, true, true, true⟩ ⟨1, some "Asha", none⟩ initState
    (Or.inl rfl)

/-- Claim C4: `get_or_create` returns the existing session unchanged when one
exists (registry untouched), and otherwise creates a fresh empty-history
session, stores it under the identifier (all other identifiers untouched),
and returns it.  Totality is witnessed by `get_or_create` being a total
function. -/
theorem C4_get_or_create (c : ChatId) (s : BotState) :
    (∀ sess, s.conversations c = some sess → get_or_create c s = (sess, s)) ∧
    (s.conversations c = none →
      (get_or_create c s).1.history = [] ∧
      (get_or_create c s).2.conversations c = some (get_or_create c s).1 ∧
      (∀ c', c' ≠ c → (get_or_create c s).2.conversations c' = s.conversations c')) := by
  constructor
  · intro sess h
    simp [get_or_create, h]
  · intro h
    refine ⟨by simp [get_or_create, h, startChat], by simp [get_or_create, h, startChat, setConversation], ?_⟩
    intro c' hc'
    simp [get_or_create, h, startChat, setConversation, hc']

/-- Witness for C4: the absent branch at identifier 5 in the initial state,
and the present branch for a stored session. -/
theorem C4_witness :
    ((get_or_create 5 initState).2.conversations 5 = some (get_or_create 5 initState).1 ∧
      (get_or_create 5 initState).1.history = []) ∧
    get_or_create 5 (setConversation initState 5 ⟨9, []⟩) =
      (⟨9, []⟩, setConversation initState 5 ⟨9, []⟩) := by
  refine ⟨⟨((C4_get_or_create 5 initState).2 rfl).2.1, ((C4_get_or_create 5 initState).2 rfl).1⟩, ?_⟩
  exact (C4_get_or_create 5 (setConversation initState 5 ⟨9, []⟩)).1 ⟨9, []⟩ (by simp [setConversation])

/-- Claim C5: the start flow's reset unconditionally stores a fresh
empty-history session (distinct from every session existing beforehand,
under the freshness invariant that stored sessions have serial numbers below
the counter), and two successive start events yield two distinct sessions
with only the second remaining in the registry. -/
theorem C5_reset_semantics (eff1 eff2 : Effects) (u : Update) (s : BotState)
    (hf : ∀ c sess, s.conversations c = some sess → sess.sid < s.nextSid) :
    (start eff1 u s).state.conversations u.chatId = some ⟨s.nextSid, []⟩ ∧
    (∀ c old, s.conversations c = some old → (⟨s.nextSid, []⟩ : ChatSession) ≠ old) ∧
    (start eff2 u (start eff1 u s).state).state.conversations u.chatId
      = some ⟨s.nextSid + 1, []⟩ ∧
    (⟨s.nextSid, []⟩ : ChatSession) ≠ (⟨s.nextSid + 1, []⟩ : ChatSession) := by
  refine ⟨by simp [start, startChat, setConversation], ?_, by simp [start, startChat, setConversation], ?_⟩
  · intro c old h heq
    have hlt := hf c old h
    rw [← heq] at hlt
    exact Nat.lt_irrefl _ hlt
  · intro heq
    have : s.nextSid = s.nextSid + 1 := congrArg ChatSession.sid heq
    omega

/-- Witness for C5: two successive start events for chat 1 from the initial
state store sessions with serials 0 then 1. -/
theorem C5_witness :
    (start ⟨true, .raise, true, true, true⟩ ⟨1, some "Asha", none⟩ initState).state.conversations 1
      = some ⟨0, []⟩ ∧
    (start ⟨true, .raise, true, true, true⟩ ⟨1, some "Asha", none⟩
        (start ⟨true, .raise, true, true, true⟩ ⟨1, some "Asha", none⟩ initState).state).state.conversations 1
      = some ⟨1, []⟩ := by
  have h := C5_reset_semantics ⟨true, .raise, true, true, true⟩ ⟨true, .raise, true, true, true⟩
    ⟨1, some "Asha", none⟩ initState (fun _ _ h => Option.noConfusion h)
  exact ⟨h.1, h.2.2.1⟩

/-- Claim C9: if either deployment-time secret is absent from the
environment, the process exits at startup with code 1 (non-zero) and no
inbound event is ever handled. -/
theorem C9_fail_fast (env : Env) (events : List (Effects × InboundEvent))
    (h : env.GOOGLE_API_KEY = none ∨ env.TELEGRAM_BOT_TOKEN = none) :
    (runProcess env events).startupExit = some 1 ∧ (runProcess env events).handled = [] := by
  rcases h with h | h
  · simp [runProcess, apiKeySetup, truthy, h]
  · cases hg : truthy env.GOOGLE_API_KEY <;>
      simp [runProcess, apiKeySetup, truthy, h, hg]

/-- Witness for C9 at a concrete environment missing the model key. -/
theorem C9_witness :
    (runProcess ⟨none, some "tok"⟩ []).startupExit = some 1 ∧
    (runProcess ⟨none, some "tok"⟩ []).handled = [] :=
  C9_fail_fast ⟨none, some "tok"⟩ [] (Or.inl rfl)

/-- Claim C10: in the start flow the registry is updated before the welcome
send: for any state, the fresh empty-history session is stored under the
chat identifier whatever the send outcome, and in particular when the
welcome send raises (error propagating out of the handler, nothing sent) the
reset is not rolled back. -/
theorem C10_reset_before_welcome (eff : Effects) (u : Update) (s : BotState) :
    (start eff u s).state.conversations u.chatId = some ⟨s.nextSid, []⟩ ∧
    (start { eff with welcomeSendOk := false } u s).raised = true ∧
    (start { eff with welcomeSendOk := false } u s).sent = [] ∧
    (start { eff with welcomeSendOk := false } u s).state.conversations u.chatId
      = some ⟨s.nextSid, []⟩ := by
  refine ⟨?_, ?_, ?_, ?_⟩ <;> simp [start, startChat, setConversation]

/-- Claim C1 counterexample: a start event is not silently ignored, yet on
the degraded path where the welcome send raises, zero outbound messages are
delivered — contradicting "exactly one outbound message ... never zero ...
on every degraded/error path". -/
theorem C1_counterexample :
    silentlyIgnored (.startCmd ⟨1, some "Asha", none⟩) = false ∧
    (handleEvent ⟨true, .raise, true, true, false⟩ (.startCmd ⟨1, some "Asha", none⟩)
        initState).sent = [] ∧
    (handleEvent ⟨true, .raise, true, true, false⟩ (.startCmd ⟨1, some "Asha", none⟩)
        initState).raised = true := by
  refine ⟨rfl, rfl, rfl⟩

/-- Claim C1 (amended): for every inbound event that is not silently
ignored, provided each outbound send operation the handler performs
succeeds, exactly one outbound message is delivered to that conversation —
the welcome message, the (non-empty) language-model reply, or one of the
two fixed fallback strings — on the success path and on every degraded
path. -/
theorem C1_one_outbound (eff : Effects) (e : InboundEvent) (s : BotState)
    (hTry : eff.trySendOk = true) (hExc : eff.exceptSendOk = true)
    (hWel : eff.welcomeSendOk = true) (hni : silentlyIgnored e = false) :
    ∃ t, (handleEvent eff e s).sent = [((eventUpdate e).chatId, t)] ∧
      (t = welcomeText ((eventUpdate e).userFirstName.getD defaultName) ∨
       (∃ r, eff.modelResult = .ok r ∧ t = extractReply r ∧ extractReply r ≠ "") ∨
       t = emptyResponseFallback ∨
       t = errorFallback) := by
  cases e with
  | startCmd u =>
    refine ⟨welcomeText (u.userFirstName.getD defaultName), ?_, Or.inl rfl⟩
    simp [handleEvent, start, hWel, eventUpdate]
  | message u =>
    cases hm : u.messageText with
    | none => simp [silentlyIgnored, hm] at hni
    | some msg =>
      have hne : msg ≠ "" := by simpa [silentlyIgnored, hm] using hni
      cases hca : eff.chatActionOk with
      | false =>
        refine ⟨errorFallback, ?_, Or.inr (Or.inr (Or.inr rfl))⟩
        simp [handleEvent, generate_response, hm, hne, hca, exceptHandler, hExc, eventUpdate]
      | true =>
        cases hmr : eff.modelResult with
        | raise =>
          refine ⟨errorFallback, ?_, Or.inr (Or.inr (Or.inr rfl))⟩
          simp [handleEvent, generate_response, hm, hne, hca, hmr, exceptHandler, hExc,
            eventUpdate]
        | ok r =>
          by_cases hr : extractReply r = ""
          · refine ⟨emptyResponseFallback, ?_, Or.inr (Or.inr (Or.inl rfl))⟩
            simp [handleEvent, generate_response, hm, hne, hca, hmr, hTry, hr, eventUpdate]
          · refine ⟨extractReply r, ?_, Or.inr (Or.inl ⟨r, rfl, rfl, hr⟩)⟩
            simp [handleEvent, generate_response, hm, hne, hca, hmr, hTry, hr, eventUpdate]

/-- Witness for C1 at a concrete successful message event. -/
theorem C1_witness :
    ∃ t, (handleEvent ⟨true, .ok ⟨some "I am well", []⟩, true, true, true⟩
        (.message ⟨42, some "Asha", some "How are you?"⟩) initState).sent = [(42, t)] ∧
      (t = welcomeText "Asha" ∨
       (∃ r, (ModelOutcome.ok ⟨some "I am well", []⟩ : ModelOutcome) = .ok r ∧
          t = extractReply r ∧ extractReply r ≠ "") ∨
       t = emptyResponseFallback ∨
       t = errorFallback) :=
  C1_one_outbound ⟨true, .ok ⟨some "I am well", []⟩, true, true, true⟩
    (.message ⟨42, some "Asha", some "How are you?"⟩) initState rfl rfl rfl rfl

/-- Claim C3 counterexample: the typing indicator (step 3) raises and the
fallback send in the error handler also raises; then no fallback is emitted
and the handler does not return normally — contradicting "the handler ...
emits the fixed localized fallback message ... and returns normally". -/
theorem C3_counterexample :
    (generate_response ⟨false, .raise, true, false, true⟩ ⟨1, some "Asha", some "hi"⟩
        initState).raised = true ∧
    (generate_response ⟨false, .raise, true, false, true⟩ ⟨1, some "Asha", some "hi"⟩
        initState).sent = [] := by
  refine ⟨rfl, rfl⟩

/-- Claim C3 (amended): for every message event with non-empty text, if any
step 3-7 raises (typing indicator, model call, or reply send), the caught
error is not propagated; provided the fallback send in the error handler
succeeds, the handler emits the fixed localized fallback to the same
conversation and returns normally.  (When the fallback send itself raises,
that new error propagates out of the handler.) -/
theorem C3_error_recovery (eff : Effects) (u : Update) (s : BotState) (msg : String)
    (hm : u.messageText = some msg) (hne : msg ≠ "")
    (hflop : eff.chatActionOk = false ∨ eff.modelResult = .raise ∨ eff.trySendOk = false)
    (hExc : eff.exceptSendOk = true) :
    (generate_response eff u s).sent = [(u.chatId, errorFallback)] ∧
    (generate_response eff u s).raised = false := by
  rcases hflop with h | h | h
  · constructor <;> simp [generate_response, hm, hne, h, exceptHandler, hExc]
  · cases hca : eff.chatActionOk <;>
      constructor <;>
        simp [generate_response, hm, hne, h, hca, exceptHandler, hExc]
  · cases hca : eff.chatActionOk with
    | false => constructor <;> simp [generate_response, hm, hne, hca, exceptHandler, hExc]
    | true =>
      cases hmr : eff.modelResult with
      | raise => constructor <;> simp [generate_response, hm, hne, hca, hmr, exceptHandler, hExc]
      | ok r => constructor <;> simp [generate_response, hm, hne, hca, hmr, h, exceptHandler, hExc]

/-- Witness for C3: a concrete message event whose model call raises. -/
theorem C3_witness :
    (generate_response ⟨true, .raise, true, true, true⟩ ⟨7, none, some "hello"⟩
        initState).sent = [(7, errorFallback)] ∧
    (generate_response ⟨true, .raise, true, true, true⟩ ⟨7, none, some "hello"⟩
        initState).raised = false :=
  C3_error_recovery ⟨true, .raise, true, true, true⟩ ⟨7, none, some "hello"⟩ initState
    "hello" rfl (by decide) (Or.inr (Or.inl rfl)) rfl

/-- Claim C6 counterexample: the typing indicator raises while the model
would have returned a usable reply; yet the prompt is never submitted
(`modelQuery = none`) and the error fallback — not the reply — is emitted,
so steps 4-7 do not execute, contradicting "the prompt is still built and
submitted ... steps 4-7 still execute". -/
theorem C6_counterexample :
    (generate_response ⟨false, .ok ⟨some "I am well", []⟩, true, true, true⟩
        ⟨1, some "Asha", some "hi"⟩ initState).modelQuery = none ∧
    (generate_response ⟨false, .ok ⟨some "I am well", []⟩, true, true, true⟩
        ⟨1, some "Asha", some "hi"⟩ initState).sent = [(1, errorFallback)] := by
  refine ⟨rfl, rfl⟩

/-- Claim C6 (amended): a failure of the activity-indicator signal (step 3)
is caught by the message handler's error path, not skipped over: the prompt
is not submitted to the language-model client and steps 4-7 do not execute;
instead, provided the fallback send succeeds, the handler emits the fixed
error fallback and returns normally — non-fatal to the handler, but it does
abort the remaining flow. -/
theorem C6_indicator_failure (eff : Effects) (u : Update) (s : BotState) (msg : String)
    (hm : u.messageText = some msg) (hne : msg ≠ "")
    (hca : eff.chatActionOk = false) (hExc : eff.exceptSendOk = true) :
    (generate_response eff u s).modelQuery = none ∧
    (generate_response eff u s).sent = [(u.chatId, errorFallback)] ∧
    (generate_response eff u s).raised = false := by
  refine ⟨?_, ?_, ?_⟩ <;> simp [generate_response, hm, hne, hca, exceptHandler, hExc]

/-- Witness for C6 at a concrete message event with a failing indicator. -/
theorem C6_witness :
    (generate_response ⟨false, .ok ⟨some "I am well", []⟩, true, true, true⟩
        ⟨3, none, some "hi"⟩ initState).modelQuery = none ∧
    (generate_response ⟨false, .ok ⟨some "I am well", []⟩, true, true, true⟩
        ⟨3, none, some "hi"⟩ initState).sent = [(3, errorFallback)] ∧
    (generate_response ⟨false, .ok ⟨some "I am well", []⟩, true, true, true⟩
        ⟨3, none, some "hi"⟩ initState).raised = false :=
  C6_indicator_failure ⟨false, .ok ⟨some "I am well", []⟩, true, true, true⟩
    ⟨3, none, some "hi"⟩ initState "hi" rfl (by decide) rfl rfl

/-- The part-scanning loop computes the text of the first part exposing
non-empty text (`List.find?` formulation), defaulting to the empty string. -/
theorem firstPartText_eq_find (ps : List Part) :
    firstPartText ps =
      (((ps.find? fun p => !(p.text.getD "" == "")).map fun p => p.text.getD "").getD "") := by
  induction ps with
  | nil => rfl
  | cons p ps ih =>
    cases hp : p.text with
    | none => simpa [firstPartText, List.find?_cons, hp] using ih
    | some t =>
      by_cases ht : t = ""
      · simpa [firstPartText, List.find?_cons, hp, ht] using ih
      · simp [firstPartText, List.find?_cons, hp, ht]

/-- Claim C7: reply extraction prefers the direct text field when present
and non-empty; otherwise it is the text of the first part exposing
non-empty text, defaulting to empty; a non-empty extracted reply is emitted
verbatim, an empty one is replaced by the fixed empty-response fallback. -/
theorem C7_extraction (eff : Effects) (u : Update) (s : BotState) (msg : String)
    (r : GenResponse)
    (hm : u.messageText = some msg) (hne : msg ≠ "")
    (hca : eff.chatActionOk = true) (hmr : eff.modelResult = .ok r)
    (hts : eff.trySendOk = true) :
    (∀ t, r.text = some t → t ≠ "" → extractReply r = t) ∧
    ((r.text = none ∨ r.text = some "") →
      extractReply r =
        (((r.parts.find? fun p => !(p.text.getD "" == "")).map fun p => p.text.getD "").getD "")) ∧
    (generate_response eff u s).sent =
      [(u.chatId, if extractReply r = "" then emptyResponseFallback else extractReply r)] ∧
    (generate_response eff u s).raised = false := by
  refine ⟨?_, ?_, ?_, ?_⟩
  · intro t ht htne
    simp [extractReply, ht, htne]
  · intro h
    rcases h with h | h <;> simp [extractReply, h, firstPartText_eq_find]
  · by_cases hr : extractReply r = "" <;>
      simp [generate_response, hm, hne, hca, hmr, hts, hr]
  · by_cases hr : extractReply r = "" <;>
      simp [generate_response, hm, hne, hca, hmr, hts, hr]

/-- Witness for C7: a response with no direct text whose second part carries
the reply; the extracted text is emitted verbatim. -/
theorem C7_witness :
    (∀ t, (⟨none, [⟨none⟩, ⟨some "namaste!"⟩]⟩ : GenResponse).text = some t → t ≠ "" →
      extractReply ⟨none, [⟨none⟩, ⟨some "namaste!"⟩]⟩ = t) ∧
    (((⟨none, [⟨none⟩, ⟨some "namaste!"⟩]⟩ : GenResponse).text = none ∨
        (⟨none, [⟨none⟩, ⟨some "namaste!"⟩]⟩ : GenResponse).text = some "") →
      extractReply ⟨none, [⟨none⟩, ⟨some "namaste!"⟩]⟩ =
        ((((⟨none, [⟨none⟩, ⟨some "namaste!"⟩]⟩ : GenResponse).parts.find?
            fun p => !(p.text.getD "" == "")).map fun p => p.text.getD "").getD "")) ∧
    (generate_response ⟨true, .ok ⟨none, [⟨none⟩, ⟨some "namaste!"⟩]⟩, true, true, true⟩
        ⟨3, none, some "hi"⟩ initState).sent =
      [(3, if extractReply ⟨none, [⟨none⟩, ⟨some "namaste!"⟩]⟩ = ""
            then emptyResponseFallback
            else extractReply ⟨none, [⟨none⟩, ⟨some "namaste!"⟩]⟩)] ∧
    (generate_response ⟨true, .ok ⟨none, [⟨none⟩, ⟨some "namaste!"⟩]⟩, true, true, true⟩
        ⟨3, none, some "hi"⟩ initState).raised = false :=
  C7_extraction ⟨true, .ok ⟨none, [⟨none⟩, ⟨some "namaste!"⟩]⟩, true, true, true⟩
    ⟨3, none, some "hi"⟩ initState "hi" ⟨none, [⟨none⟩, ⟨some "namaste!"⟩]⟩
    rfl (by decide) rfl rfl rfl

/-- Claim C8: a message event with non-empty text for an identifier with no
prior session, whose model call raises: exactly one outbound fallback
message is delivered and the lazily created session is still in the
registry after the handler returns. -/
theorem C8_session_survives_error (eff : Effects) (u : Update) (s : BotState) (msg : String)
    (hnone : s.conversations u.chatId = none)
    (hm : u.messageText = some msg) (hne : msg ≠ "")
    (hca : eff.chatActionOk = true) (hmr : eff.modelResult = .raise)
    (hExc : eff.exceptSendOk = true) :
    (generate_response eff u s).sent = [(u.chatId, errorFallback)] ∧
    (generate_response eff u s).state.conversations u.chatId = some ⟨s.nextSid, []⟩ ∧
    (generate_response eff u s).raised = false := by
  refine ⟨?_, ?_, ?_⟩ <;>
    simp [generate_response, hm, hne, hca, hmr, hExc, exceptHandler, get_or_create, hnone,
      startChat, setConversation]

/-- Witness for C8: the specification's end-to-end scenario 3 (chat 7, no
prior session, network error from the model). -/
theorem C8_witness :
    (generate_response ⟨true, .raise, true, true, true⟩ ⟨7, some "Asha", some "hello"⟩
        initState).sent = [(7, errorFallback)] ∧
    (generate_response ⟨true, .raise, true, true, true⟩ ⟨7, some "Asha", some "hello"⟩
        initState).state.conversations 7 = some ⟨0, []⟩ ∧
    (generate_response ⟨true, .raise, true, true, true⟩ ⟨7, some "Asha", some "hello"⟩
        initState).raised = false :=
  C8_session_survives_error ⟨true, .raise, true, true, true⟩ ⟨7, some "Asha", some "hello"⟩
    initState "hello" rfl rfl (by decide) rfl rfl rfl

end KritikaBot
